import Mathlib

/-!
Shallow embedding of the newsletter-query backend (src/main.py, src/schemas.py).

The service persists documents in a MongoDB-style document store and exposes
endpoints POST /parse, POST /pitch, POST /draft, POST /approve, POST /send
(src/main.py).  The store adapter (`database.py`: `db`, `create_document`,
`get_documents`) is not part of src/; its behaviour is modelled from the spec
(section 2 "Document Store Adapter" and section 6 "Persisted state layout"):
every inserted document receives a store-assigned unique identifier, and reads
return documents in insertion order up to a limit.

Store-assigned identifiers are BSON ObjectIds.  We model an ObjectId as a
`Nat` and its string form (`str(doc["_id"])` in Python, used throughout
src/main.py) as `oidToString`.  A BSON value stored in a document field can be
a string or an ObjectId; MongoDB equality between values of the two types is
always false, which `bsonIdMatchesOid` captures.  Timestamps
(`datetime.now(timezone.utc)`) are modelled as abstract instants (`Nat`),
passed to each endpoint as an explicit `now` argument.
-/

/-- String form of a store-assigned ObjectId, as produced by Python
`str(doc["_id"])`.  Injective on our Nat model of ObjectIds. -/
def oidToString (n : Nat) : String := toString n

/-- Model of Python `ObjectId(s)` (src/main.py lines 289, 307): recovers the
ObjectId from its string form, raising (here: `none`) on a malformed id.
Inverse of `oidToString` on well-formed ids, written as a structural decimal
parser over the character list. -/
def parseObjectId (s : String) : Option Nat :=
  if s.data ≠ [] ∧ s.data.all (fun c => c.isDigit) then
    some (s.data.foldl (fun acc c => acc * 10 + (c.toNat - 48)) 0)
  else
    none

/-- Detail string of pymongo's InvalidId exception for a malformed id string,
as stringified by the `except Exception` handlers in src/main.py. -/
def invalidIdMsg (s : String) : String :=
  "'" ++ s ++ "' is not a valid ObjectId, it must be a 12-byte input or a 24-character hex string"

/-- A BSON identifier value as it can appear in a filter: either a genuine
ObjectId or a plain string. -/
inductive BsonId where
  | oid (n : Nat)
  | str (s : String)
deriving DecidableEq, Repr

/-- MongoDB equality between a filter value and a document's ObjectId `_id`:
a string value never equals an ObjectId (different BSON types). -/
def bsonIdMatchesOid (filter : BsonId) (oid : Nat) : Bool :=
  match filter with
  | .oid n => n == oid
  | .str _ => false

/-- Model of Python `"\n".join(lines)` (src/main.py line 208). -/
def joinNL : List String → String
  | [] => ""
  | [x] => x
  | x :: y :: xs => x ++ "\n" ++ joinNL (y :: xs)

/-- Character-level model of Python `str.format` with keyword arguments
(src/main.py lines 255-265): substitutes `\x7bfield\x7d` occurrences from
`vars`, returning `Except.error field` for a field name that is not among the
keyword arguments (Python KeyError).  An unterminated field is also an error
(Python ValueError).  The second argument accumulates the characters of the
field currently being read (`none` when outside a field). -/
def renderChars (vars : List (String × String)) : Option (List Char) → List Char → Except String String
  | none, [] => .ok ""
  | some acc, [] => .error (String.mk acc.reverse)
  | none, '{' :: rest => renderChars vars (some []) rest
  | none, c :: rest => (renderChars vars none rest).map (fun t => String.mk [c] ++ t)
  | some acc, '}' :: rest =>
      match vars.lookup (String.mk acc.reverse) with
      | some v => (renderChars vars none rest).map (fun t => v ++ t)
      | none => .error (String.mk acc.reverse)
  | some acc, c :: rest => renderChars vars (some (c :: acc)) rest

/-- Render a Python format template against keyword arguments `vars`. -/
def renderFormat (vars : List (String × String)) (template : String) : Except String String :=
  renderChars vars none template.data

/-- Model of Python `now.replace(microsecond=0)` (src/main.py line 128) on a
timestamp counted in microseconds. -/
def truncMicro (t : Nat) : Nat := t - t % 1000000

/-- A document of the `settings` collection (src/schemas.py `Settings`, as
consumed as a plain dict by src/main.py via `style.get(...)`).  Each field is
`none` when the key is absent from the stored document. -/
structure SettingsDoc where
  tone : Option String := none
  voice : Option String := none
  intro_template : Option String := none
  signature_template : Option String := none
  your_name : Option String := none
  your_title : Option String := none
  your_website : Option String := none
deriving DecidableEq, Repr

/-- A document of the `query` collection (src/schemas.py `Query` plus the
store-assigned `_id` and the `updated_at` field written by /send). -/
structure QueryDoc where
  oid : Nat
  subject : String
  sender_email : String
  sender_name : Option String := none
  received_at : Nat
  deadline : Option Nat := none
  body_text : String
  source_message_id : Option String := none
  status : String
  tags : List String := []
  updated_at : Option Nat := none
deriving DecidableEq, Repr

/-- A document of the `pitch` collection (src/schemas.py `Pitch`; the
`style_used` dict is flattened to its two keys, src/main.py lines 213-216). -/
structure PitchDoc where
  oid : Nat
  query_id : String
  content : String
  style_tone : Option String := none
  style_voice : Option String := none
  created_at : Nat
deriving DecidableEq, Repr

/-- A document of the `emaildraft` collection (src/schemas.py `EmailDraft`
plus `_id` and the `updated_at` field written by /approve).  The `query_id`
field is stored as the plain request string (src/main.py line 270). -/
structure EmailDraftDoc where
  oid : Nat
  query_id : String
  to_email : String
  subject : String
  body : String
  approved : Bool
  created_at : Nat
  updated_at : Option Nat := none
deriving DecidableEq, Repr

/-- A document of the append-only `sent` collection (src/main.py lines
315-321). -/
structure SentDoc where
  oid : Nat
  draft_id : String
  «to» : String
  subject : String
  body : String
  sent_at : Nat
deriving DecidableEq, Repr

/-- Modelled from the spec: the document database behind the Document Store
Adapter (`database.py` is not under src/).  Five collections in insertion
order, plus a counter supplying the next store-assigned ObjectId; an insert
appends the document, assigns `nextId` as its ObjectId and returns that id as
a string, and never fails in this model. -/
structure Store where
  settings : List SettingsDoc := []
  query : List QueryDoc := []
  pitch : List PitchDoc := []
  emaildraft : List EmailDraftDoc := []
  sent : List SentDoc := []
  nextId : Nat := 0
deriving DecidableEq, Repr

/-- Outcome of one HTTP request, as seen by the client together with the
store state after the call.  `httpError` is a raised (or re-raised)
HTTPException with its status code and detail string; `uncaught` is an
exception escaping the endpoint function, which the framework turns into a
generic 500 Internal Server Error response that carries none of the
exception's information. -/
inductive EndpointResult (α : Type) where
  | ok (value : α)
  | httpError (status : Nat) (detail : String)
  | uncaught (detail : String)
deriving DecidableEq, Repr

/-- Response body of POST /parse (src/main.py line 144). -/
structure ParseOut where
  inserted : Nat
  ids : List String
deriving DecidableEq, Repr

/-- Response body of POST /pitch (src/main.py line 222). -/
structure PitchOut where
  pitch_id : String
  content : String
deriving DecidableEq, Repr

/-- Response body of POST /draft (src/main.py line 280). -/
structure DraftOut where
  draft_id : String
  body : String
deriving DecidableEq, Repr

/-- Response body of POST /approve (src/main.py line 295). -/
structure ApproveOut where
  updated : Bool
deriving DecidableEq, Repr

/-- Response body of POST /send (src/main.py line 329). -/
structure SendOut where
  sent_id : String
deriving DecidableEq, Repr

/-- Sample Query document built by the /parse loop iteration `i`
(src/main.py lines 119-134), inserted with ObjectId `oid`. -/
def sampleQuery (now : Nat) (oid : Nat) (i : Nat) : QueryDoc :=
  { oid := oid
  , subject := "Call for psychology expert comment #" ++ toString (i + 1)
  , sender_email := "editor" ++ toString (i + 1) ++ "@newsletter.com"
  , sender_name := some "Newsletter Editor"
  , received_at := now
  , deadline := some (truncMicro now)
  , body_text := "We're seeking a psychologist's perspective on workplace burnout and coping strategies."
  , source_message_id := some ("sim-" ++ toString (i + 1))
  , status := "new"
  , tags := ["psych", "newsletter"]
  , updated_at := none }

/-- Endpoint POST /parse (src/main.py lines 113-144, `parse_newsletters`).
The request's `limit` field is a Python int; `range(limit)` is empty for a
negative limit, hence `Int.toNat`.  Each loop iteration inserts one document
through `create_document`; in this model inserts always succeed, so the 500
branch of the loop is unreachable and the call returns the count and ids. -/
def parse_newsletters (store : Store) (now : Nat) (limit : Int) :
    EndpointResult ParseOut × Store :=
  let n := limit.toNat
  let docs := (List.range n).map (fun i => sampleQuery now (store.nextId + i) i)
  let ids := docs.map (fun d => oidToString d.oid)
  (.ok { inserted := ids.length, ids := ids },
   { store with query := store.query ++ docs, nextId := store.nextId + n })

/-- Fallback style dict of /pitch when no settings document exists
(src/main.py lines 172-180). -/
def pitchDefaultStyle : SettingsDoc :=
  { tone := some "friendly"
  , voice := some "First-person expert but approachable"
  , intro_template := some "Hi {name},\n\nThanks for reaching out. I'm {your_name}, a {your_title}."
  , signature_template := some "\n\nBest,\n{your_name}\n{your_title}\n{your_website}"
  , your_name := some "Your Name"
  , your_title := some "Licensed Psychologist"
  , your_website := some "yourwebsite.com" }

/-- Fallback style dict of /draft when no settings document exists
(src/main.py lines 233-239); unlike the /pitch fallback it has no tone or
voice keys. -/
def draftDefaultStyle : SettingsDoc :=
  { tone := none
  , voice := none
  , intro_template := some "Hi {name},\n\nThanks for reaching out. I'm {your_name}, a {your_title}."
  , signature_template := some "\n\nBest,\n{your_name}\n{your_title}\n{your_website}"
  , your_name := some "Your Name"
  , your_title := some "Licensed Psychologist"
  , your_website := some "yourwebsite.com" }

/-- Style resolution of /pitch (src/main.py lines 171-180):
`get_documents("settings", limit=1)` and fall back to the literal dict. -/
def resolveStylePitch (store : Store) : SettingsDoc :=
  store.settings.head?.getD pitchDefaultStyle

/-- Style resolution of /draft (src/main.py lines 232-239). -/
def resolveStyleDraft (store : Store) : SettingsDoc :=
  store.settings.head?.getD draftDefaultStyle

/-- Query lookup shared by /pitch and /draft (src/main.py lines 183-184 and
242-243): fetch at most 200 query documents (the filter on `_id` existence
matches every document) and scan them for a string-equal id match. -/
def findQuery (store : Store) (query_id : String) : Option QueryDoc :=
  (store.query.take 200).find? (fun d => oidToString d.oid == query_id)

/-- Fixed bullet-point part of the generated pitch: everything of the content
before the tone-conditioned closing sentence (src/main.py lines 192-199,
joined at line 208). -/
def pitchBulletPrefix (subject : String) : String :=
  "Regarding: " ++ subject ++
    "\n\nKey points I can contribute:\n- Evidence-based insights on burnout and coping\n- Practical takeaways grounded in CBT and behavioral science\n- Availability for quick follow-up if needed\n"

/-- Endpoint POST /pitch (src/main.py lines 165-224, `generate_pitch`).
The 404 for a missing query (line 186) is raised outside any try/except and
therefore reaches the client as a 404; the only try/except wraps the insert,
which always succeeds in this model. -/
def generate_pitch (store : Store) (now : Nat) (query_id : String) :
    EndpointResult PitchOut × Store :=
  let style := resolveStylePitch store
  match findQuery store query_id with
  | none => (.httpError 404 "Query not found", store)
  | some target =>
    let closing :=
      if style.tone == some "formal" then
        "I would be pleased to provide a concise, research-informed statement."
      else if style.tone == some "confident" then
        "I regularly comment for national outlets and can deliver a crisp quote."
      else
        "Happy to share a tight quote that serves your readers."
    let pitch_lines :=
      ["Regarding: " ++ target.subject
      , ""
      , "Key points I can contribute:"
      , "- Evidence-based insights on burnout and coping"
      , "- Practical takeaways grounded in CBT and behavioral science"
      , "- Availability for quick follow-up if needed"] ++ [closing]
    let content := joinNL pitch_lines
    let doc : PitchDoc :=
      { oid := store.nextId
      , query_id := query_id
      , content := content
      , style_tone := style.tone
      , style_voice := style.voice
      , created_at := now }
    (.ok { pitch_id := oidToString doc.oid, content := content },
     { store with pitch := store.pitch ++ [doc], nextId := store.nextId + 1 })

/-- Pitch content used by /draft (src/main.py lines 248-251): the first
stored pitch for the query, or the placeholder sentence when there is none or
its content is empty (Python falsy). -/
def draftPitchContent (store : Store) (query_id : String) : String :=
  match ((store.pitch.filter (fun p => p.query_id == query_id)).take 1).head? with
  | some p => if p.content == "" then "See below for my quick take: ..." else p.content
  | none => "See below for my quick take: ..."

/-- Recipient name used by /draft (src/main.py line 253):
`target.get("sender_name") or "there"`, where both an absent key and an empty
string are falsy. -/
def senderNameOr (q : QueryDoc) : String :=
  match q.sender_name with
  | some s => if s == "" then "there" else s
  | none => "there"

/-- Keyword arguments of the intro-template rendering (src/main.py lines
255-259). -/
def introVars (style : SettingsDoc) (name : String) : List (String × String) :=
  [("name", name)
  , ("your_name", style.your_name.getD "Your Name")
  , ("your_title", style.your_title.getD "Licensed Psychologist")]

/-- Keyword arguments of the signature-template rendering (src/main.py lines
261-265). -/
def sigVars (style : SettingsDoc) : List (String × String) :=
  [("your_name", style.your_name.getD "Your Name")
  , ("your_title", style.your_title.getD "Licensed Psychologist")
  , ("your_website", style.your_website.getD "yourwebsite.com")]

/-- Intro rendering of /draft (src/main.py lines 255-259). -/
def renderIntro (style : SettingsDoc) (name : String) : Except String String :=
  renderFormat (introVars style name) (style.intro_template.getD "")

/-- Signature rendering of /draft (src/main.py lines 261-265). -/
def renderSignature (style : SettingsDoc) : Except String String :=
  renderFormat (sigVars style) (style.signature_template.getD "")

/-- Endpoint POST /draft (src/main.py lines 227-282, `draft_email`).
The 404 for a missing query (line 245) is raised outside any try/except and
reaches the client as a 404.  The two `.format` calls also run outside the
try/except: a KeyError raised for an unknown placeholder escapes the endpoint
uncaught and the framework answers with a generic 500.  The try/except wraps
only the insert, which always succeeds in this model. -/
def draft_email (store : Store) (now : Nat) (query_id : String) :
    EndpointResult DraftOut × Store :=
  let style := resolveStyleDraft store
  match findQuery store query_id with
  | none => (.httpError 404 "Query not found", store)
  | some target =>
    let pitch_content := draftPitchContent store query_id
    let name := senderNameOr target
    match renderIntro style name with
    | .error key => (.uncaught key, store)
    | .ok intro =>
      match renderSignature style with
      | .error key => (.uncaught key, store)
      | .ok signature =>
        let body := intro ++ "\n\n" ++ pitch_content ++ signature
        let draft_doc : EmailDraftDoc :=
          { oid := store.nextId
          , query_id := query_id
          , to_email := target.sender_email
          , subject := target.subject
          , body := body
          , approved := false
          , created_at := now
          , updated_at := none }
        (.ok { draft_id := oidToString draft_doc.oid, body := body },
         { store with emaildraft := store.emaildraft ++ [draft_doc], nextId := store.nextId + 1 })

/-- MongoDB `update_one` on the emaildraft collection with filter
`_id = ObjectId n` and update `$set approved, updated_at` (src/main.py lines
290-292).  Returns the collection after the update together with
`matched_count` and `modified_count`; only the first matching document is
updated, and `modified_count` is 1 only when the document's content actually
changed. -/
def updateOneDraft (l : List EmailDraftDoc) (n : Nat) (v : Bool) (now : Nat) :
    List EmailDraftDoc × Nat × Nat :=
  match l with
  | [] => ([], 0, 0)
  | d :: ds =>
    if d.oid == n then
      let d2 : EmailDraftDoc := { d with approved := v, updated_at := some now }
      (d2 :: ds, 1, if d2 = d then 0 else 1)
    else
      let r := updateOneDraft ds n v now
      (d :: r.1, r.2)

/-- MongoDB `update_one` on the query collection with the /send filter
`\x7b"_id": draft["query_id"]\x7d` and update `$set status := "sent",
updated_at` (src/main.py lines 325-327).  The filter value comes from the
draft's stored `query_id` field; `bsonIdMatchesOid` applies BSON equality
between the filter value and each document's ObjectId. -/
def updateOneQuerySent (l : List QueryDoc) (filter : BsonId) (now : Nat) :
    List QueryDoc :=
  match l with
  | [] => []
  | q :: qs =>
    if bsonIdMatchesOid filter q.oid then
      { q with status := "sent", updated_at := some now } :: qs
    else
      q :: updateOneQuerySent qs filter now

/-- Endpoint POST /approve (src/main.py lines 285-297, `approve_draft`).
The whole body runs inside `try ... except Exception as e: raise
HTTPException(500, str(e))`: the HTTPException(404) raised for an unmatched
draft is itself caught there and re-raised as a 500 whose detail is the
stringified original exception, and a malformed id makes `ObjectId` raise
InvalidId with the same fate.  On a match the endpoint reports
`updated = bool(modified_count)`. -/
def approve_draft (store : Store) (now : Nat) (draft_id : String) (approved : Bool) :
    EndpointResult ApproveOut × Store :=
  match parseObjectId draft_id with
  | none => (.httpError 500 (invalidIdMsg draft_id), store)
  | some n =>
    let r := updateOneDraft store.emaildraft n approved now
    if r.2.1 == 0 then
      (.httpError 500 "404: Draft not found", store)
    else
      (.ok { updated := r.2.2 != 0 }, { store with emaildraft := r.1 })

/-- Endpoint POST /send (src/main.py lines 300-331, `send_email`).
The whole body runs inside `try ... except Exception as e: raise
HTTPException(500, str(e))`: the HTTPException(404) for a missing draft and
the HTTPException(400) for an unapproved draft are both caught there and
re-raised as 500s whose detail is the stringified original exception.  On
success a sent record copying the draft's fields is inserted, and the query
update runs with the draft's stored string `query_id` as the `_id` filter
value. -/
def send_email (store : Store) (now : Nat) (draft_id : String) :
    EndpointResult SendOut × Store :=
  match parseObjectId draft_id with
  | none => (.httpError 500 (invalidIdMsg draft_id), store)
  | some n =>
    match store.emaildraft.find? (fun d => d.oid == n) with
    | none => (.httpError 500 "404: Draft not found", store)
    | some draft =>
      if !draft.approved then
        (.httpError 500 "400: Draft not approved", store)
      else
        let record : SentDoc :=
          { oid := store.nextId
          , draft_id := oidToString draft.oid
          , «to» := draft.to_email
          , subject := draft.subject
          , body := draft.body
          , sent_at := now }
        let store1 := { store with sent := store.sent ++ [record], nextId := store.nextId + 1 }
        let store2 := { store1 with query := updateOneQuerySent store1.query (BsonId.str draft.query_id) now }
        (.ok { sent_id := oidToString record.oid }, store2)

/-- A minimal query document used as concrete input in several witnesses. -/
def simpleQuery : QueryDoc :=
  { oid := 0, subject := "S", sender_email := "editor@x.com", received_at := 0
  , body_text := "b", status := "new" }

/-- Store holding one settings document carrying only a tone, plus one query. -/
def toneStore (t : String) : Store :=
  { settings := [{ tone := some t }], query := [simpleQuery], nextId := 1 }

/-- Store holding one query and no settings document. -/
def noSettingsStore : Store := { query := [simpleQuery], nextId := 1 }

/-- The query of the specification's /draft scenario. -/
def janeQuery : QueryDoc :=
  { oid := 0, subject := "Need psych expert", sender_email := "jane@x.com"
  , sender_name := some "Jane", received_at := 0, body_text := "b", status := "new" }

/-- Store of the /draft scenario: the Jane query, no settings, no pitch. -/
def janeStore : Store := { query := [janeQuery], nextId := 1 }

/-- Intro rendered for the Jane scenario under the default settings. -/
def janeIntro : String :=
  "Hi Jane,\n\nThanks for reaching out. I'm Your Name, a Licensed Psychologist."

/-- Signature rendered under the default settings. -/
def janeSig : String := "\n\nBest,\nYour Name\nLicensed Psychologist\nyourwebsite.com"

/-- Complete body of the Jane scenario. -/
def janeBody : String :=
  "Hi Jane,\n\nThanks for reaching out. I'm Your Name, a Licensed Psychologist.\n\nSee below for my quick take: ...\n\nBest,\nYour Name\nLicensed Psychologist\nyourwebsite.com"

/-- Store holding 201 query documents (ObjectIds 0..200) in insertion order. -/
def cap201Store : Store :=
  { query := (List.range 201).map (fun i => sampleQuery 0 i i), nextId := 201 }

/-- Settings document whose intro template references the unknown placeholder
`recipient`. -/
def badTemplateSettings : SettingsDoc :=
  { intro_template := some "Hi {recipient},", signature_template := some "Bye" }

/-- Store with the bad-template settings and one query. -/
def badTemplateStore : Store :=
  { settings := [badTemplateSettings], query := [simpleQuery], nextId := 1 }

/-- A second bad-template settings document, for the amended-claim witness. -/
def badTemplateSettings2 : SettingsDoc :=
  { intro_template := some "Hello {nickname}!", signature_template := some "{your_name}"
  , your_name := some "Dr. X" }

/-- Store with the second bad-template settings and one query. -/
def badTemplateStore2 : Store :=
  { settings := [badTemplateSettings2], query := [simpleQuery], nextId := 1 }

/-- A settings document whose intro template renders cleanly but whose
signature template references the unknown placeholder "handle". -/
def badSigSettings : SettingsDoc :=
  { intro_template := some "Hi {name},", signature_template := some "Cheers {handle}"
  , your_name := some "Dr. X" }

/-- Store with the bad-signature settings and one query. -/
def badSigStore : Store :=
  { settings := [badSigSettings], query := [simpleQuery], nextId := 1 }

/-- Query referenced by the approved draft in the send scenario. -/
def sendQuery : QueryDoc :=
  { oid := 0, subject := "Need psych expert", sender_email := "jane@x.com"
  , received_at := 0, body_text := "b", status := "new" }

/-- An approved draft whose `query_id` is the string form of `sendQuery`'s
ObjectId, exactly as /draft stores it. -/
def sendDraft : EmailDraftDoc :=
  { oid := 1, query_id := "0", to_email := "jane@x.com", subject := "Need psych expert"
  , body := "Hello", approved := true, created_at := 0 }

/-- Store with one query and one approved draft referencing it. -/
def sendStore : Store := { query := [sendQuery], emaildraft := [sendDraft], nextId := 2 }

/-- An unapproved draft. -/
def unapprovedDraft : EmailDraftDoc :=
  { oid := 0, query_id := "0", to_email := "a@b.c", subject := "s", body := "b"
  , approved := false, created_at := 0 }

/-- Store with one unapproved draft. -/
def unapprovedStore : Store := { emaildraft := [unapprovedDraft], nextId := 1 }

/-- The empty store. -/
def emptyStore : Store := {}

/-- A draft already approved at time 5, for the approve-frame witness. -/
def approvedAt5Draft : EmailDraftDoc :=
  { oid := 0, query_id := "0", to_email := "a@b.c", subject := "s", body := "b"
  , approved := true, created_at := 0, updated_at := some 5 }

/-- Store with the already-approved draft. -/
def approvedAt5Store : Store := { emaildraft := [approvedAt5Draft], nextId := 1 }

/-- Joining the pitch lines splits into the fixed bullet-point prefix and the
closing sentence. -/
theorem joinNL_pitch (subject closing : String) :
    joinNL (["Regarding: " ++ subject
      , ""
      , "Key points I can contribute:"
      , "- Evidence-based insights on burnout and coping"
      , "- Practical takeaways grounded in CBT and behavioral science"
      , "- Availability for quick follow-up if needed"] ++ [closing]) =
    pitchBulletPrefix subject ++ closing := by
  show _ = "Regarding: " ++ subject ++ _ ++ closing
  simp only [joinNL, List.cons_append, List.nil_append, String.append_assoc]
  congr 1

/-- Master shape of a successful /pitch call: the response content is the
fixed bullet prefix followed by the tone-selected closing sentence. -/
theorem generate_pitch_found (store : Store) (now : Nat) (qid : String) (q : QueryDoc)
    (hq : findQuery store qid = some q) :
    (generate_pitch store now qid).1 =
      .ok { pitch_id := oidToString store.nextId
          , content := pitchBulletPrefix q.subject ++
              (if (resolveStylePitch store).tone == some "formal" then
                "I would be pleased to provide a concise, research-informed statement."
              else if (resolveStylePitch store).tone == some "confident" then
                "I regularly comment for national outlets and can deliver a crisp quote."
              else
                "Happy to share a tight quote that serves your readers.") } := by
  unfold generate_pitch
  rw [hq]
  simp only [joinNL_pitch]

/-- Master shape of a successful /draft call whose two template renderings
succeed: the body is intro, blank line, pitch content, signature. -/
theorem draft_email_found (store : Store) (now : Nat) (qid : String) (q : QueryDoc)
    (intro sig : String)
    (hq : findQuery store qid = some q)
    (hi : renderIntro (resolveStyleDraft store) (senderNameOr q) = .ok intro)
    (hs : renderSignature (resolveStyleDraft store) = .ok sig) :
    (draft_email store now qid).1 =
      .ok { draft_id := oidToString store.nextId
          , body := intro ++ "\n\n" ++ draftPitchContent store qid ++ sig } := by
  unfold draft_email
  rw [hq]
  simp only [hi, hs]

/-- Behaviour of the modelled `update_one` on a collection decomposed around
its first match: only that document is rewritten, `matched_count` is 1, and
`modified_count` is 1 exactly when the document changed. -/
theorem updateOneDraft_split (pre : List EmailDraftDoc) (d : EmailDraftDoc)
    (post : List EmailDraftDoc) (n : Nat) (v : Bool) (now : Nat)
    (hd : d.oid = n) (hpre : ∀ p ∈ pre, p.oid ≠ n) :
    updateOneDraft (pre ++ d :: post) n v now =
      (pre ++ { d with approved := v, updated_at := some now } :: post, 1,
        if ({ d with approved := v, updated_at := some now } : EmailDraftDoc) = d then 0 else 1) := by
  induction pre with
  | nil => simp [updateOneDraft, hd]
  | cons p ps ih =>
    have hp : (p.oid == n) = false := by
      simp [hpre p (by simp)]
    have ih2 := ih (fun x hx => hpre x (by simp [hx]))
    simp [updateOneDraft, hp, List.append_eq, ih2]

/-- Behaviour of /approve on a store whose draft collection is decomposed
around the first draft matching the requested id. -/
theorem approve_split (store : Store) (now : Nat) (did : String) (v : Bool) (n : Nat)
    (pre post : List EmailDraftDoc) (d : EmailDraftDoc)
    (hn : parseObjectId did = some n)
    (hsplit : store.emaildraft = pre ++ d :: post)
    (hd : d.oid = n)
    (hpre : ∀ p ∈ pre, p.oid ≠ n) :
    approve_draft store now did v =
      (.ok { updated := if ({ d with approved := v, updated_at := some now } : EmailDraftDoc) = d
                        then false else true },
       { store with emaildraft := pre ++ { d with approved := v, updated_at := some now } :: post }) := by
  unfold approve_draft
  rw [hn]
  dsimp only
  rw [hsplit, updateOneDraft_split pre d post n v now hd hpre]
  by_cases hdd : ({ d with approved := v, updated_at := some now } : EmailDraftDoc) = d <;>
    simp [hdd]

/-- C6: for every existing Query, the closing sentence of the pitch generated
by POST /pitch is selected by exact match on the resolved Settings tone:
tone "formal" always yields the formal closing sentence, tone "confident"
always yields the confident closing sentence, and any other tone value
(including "concise", an unset tone, or absent settings, which resolve to the
default tone "friendly") yields the generic fallback sentence. -/
theorem pitch_tone_conditioning (store : Store) (now : Nat) (qid : String) (q : QueryDoc)
    (hq : findQuery store qid = some q) :
    ((resolveStylePitch store).tone = some "formal" →
      (generate_pitch store now qid).1 =
        .ok { pitch_id := oidToString store.nextId
            , content := pitchBulletPrefix q.subject ++
                "I would be pleased to provide a concise, research-informed statement." }) ∧
    ((resolveStylePitch store).tone = some "confident" →
      (generate_pitch store now qid).1 =
        .ok { pitch_id := oidToString store.nextId
            , content := pitchBulletPrefix q.subject ++
                "I regularly comment for national outlets and can deliver a crisp quote." }) ∧
    ((resolveStylePitch store).tone ≠ some "formal" →
      (resolveStylePitch store).tone ≠ some "confident" →
      (generate_pitch store now qid).1 =
        .ok { pitch_id := oidToString store.nextId
            , content := pitchBulletPrefix q.subject ++
                "Happy to share a tight quote that serves your readers." }) ∧
    (store.settings = [] →
      (generate_pitch store now qid).1 =
        .ok { pitch_id := oidToString store.nextId
            , content := pitchBulletPrefix q.subject ++
                "Happy to share a tight quote that serves your readers." }) := by
  have base := generate_pitch_found store now qid q hq
  refine ⟨fun h => ?_, fun h => ?_, fun h1 h2 => ?_, fun h => ?_⟩
  · rw [base]; simp [h]
  · rw [base]; simp [h]
  · rw [base]
    simp [beq_eq_false_iff_ne.mpr h1, beq_eq_false_iff_ne.mpr h2]
  · rw [base]
    have hres : resolveStylePitch store = pitchDefaultStyle := by
      simp [resolveStylePitch, h]
    simp [hres, pitchDefaultStyle]

/-- Witness for C6: all the closing-sentence branches observed on concrete
stores with tone "formal", "confident", "concise", and with no settings
document. -/
theorem pitch_tone_conditioning_witness :
    (generate_pitch (toneStore "formal") 0 "0").1 =
      .ok { pitch_id := "1"
          , content := pitchBulletPrefix "S" ++
              "I would be pleased to provide a concise, research-informed statement." } ∧
    (generate_pitch (toneStore "confident") 0 "0").1 =
      .ok { pitch_id := "1"
          , content := pitchBulletPrefix "S" ++
              "I regularly comment for national outlets and can deliver a crisp quote." } ∧
    (generate_pitch (toneStore "concise") 0 "0").1 =
      .ok { pitch_id := "1"
          , content := pitchBulletPrefix "S" ++
              "Happy to share a tight quote that serves your readers." } ∧
    (generate_pitch noSettingsStore 0 "0").1 =
      .ok { pitch_id := "1"
          , content := pitchBulletPrefix "S" ++
              "Happy to share a tight quote that serves your readers." } := by
  refine ⟨?_, ?_, ?_, ?_⟩
  · exact (pitch_tone_conditioning (toneStore "formal") 0 "0" simpleQuery rfl).1 rfl
  · exact (pitch_tone_conditioning (toneStore "confident") 0 "0" simpleQuery rfl).2.1 rfl
  · exact (pitch_tone_conditioning (toneStore "concise") 0 "0" simpleQuery rfl).2.2.1
      (by decide) (by decide)
  · exact (pitch_tone_conditioning noSettingsStore 0 "0" simpleQuery rfl).2.2.2 rfl

/-- C9: the query lookup of POST /pitch retrieves at most 200 query documents
and scans them for a string-equal id match, so a query whose id is not among
the first 200 documents of the collection is unreachable: the call fails with
the 404 NotFound outcome even though the query exists in the store. -/
theorem lookup_cap_200 (store : Store) (now : Nat) (qid : String) (q : QueryDoc)
    (_hmem : q ∈ store.query) (_hid : oidToString q.oid = qid)
    (hmiss : ∀ d ∈ store.query.take 200, oidToString d.oid ≠ qid) :
    generate_pitch store now qid = (.httpError 404 "Query not found", store) := by
  have hfind : findQuery store qid = none := by
    apply List.find?_eq_none.mpr
    intro d hd
    simp [beq_eq_false_iff_ne.mpr (hmiss d hd)]
  unfold generate_pitch
  rw [hfind]

set_option maxRecDepth 40000 in
/-- Witness for C9: with 201 stored queries, requesting a pitch for the 201st
(ObjectId 200, placed last by insertion order) yields the 404 NotFound
outcome. -/
theorem lookup_cap_200_witness :
    generate_pitch cap201Store 0 "200" = (.httpError 404 "Query not found", cap201Store) :=
  lookup_cap_200 cap201Store 0 "200" (sampleQuery 0 200 200)
    (List.mem_map.mpr ⟨200, List.mem_range.mpr (by norm_num), rfl⟩)
    rfl
    (by decide)

/-- C7: for every limit at least 0, a call to POST /parse succeeds and
creates exactly `limit` query documents, each with status "new", and returns
their count and their ids. -/
theorem parse_creates_limit_queries (store : Store) (now : Nat) (limit : Int)
    (h : 0 ≤ limit) :
    ∃ out store2, parse_newsletters store now limit = (.ok out, store2) ∧
      (out.inserted : Int) = limit ∧
      out.ids.length = out.inserted ∧
      store2.query.length = store.query.length + out.inserted ∧
      (∀ d ∈ store2.query.drop store.query.length, d.status = "new") ∧
      out.ids = (store2.query.drop store.query.length).map (fun d => oidToString d.oid) := by
  refine ⟨_, _, rfl, ?_, ?_, ?_, ?_, ?_⟩
  · simp [Int.toNat_of_nonneg h]
  · simp
  · simp
  · intro d hd
    rw [List.drop_left] at hd
    obtain ⟨i, hi, rfl⟩ := List.mem_map.mp hd
    rfl
  · rw [List.drop_left]

/-- Witness for C7: parsing with limit 3 on the empty store inserts exactly 3
new-status queries and returns their count and ids. -/
theorem parse_creates_limit_queries_witness :
    0 ≤ (3 : Int) ∧
    ∃ out store2, parse_newsletters emptyStore 7 3 = (.ok out, store2) ∧
      (out.inserted : Int) = 3 ∧
      out.ids.length = out.inserted ∧
      store2.query.length = emptyStore.query.length + out.inserted ∧
      (∀ d ∈ store2.query.drop emptyStore.query.length, d.status = "new") ∧
      out.ids = (store2.query.drop emptyStore.query.length).map (fun d => oidToString d.oid) :=
  ⟨by norm_num, parse_creates_limit_queries emptyStore 7 3 (by norm_num)⟩

/-- C8: for every existing Query, the body produced by POST /draft is the
rendered intro template (with the name placeholder substituted by the query's
sender_name, defaulting to "there" when empty or absent), a blank line, the
pitch content or fixed placeholder sentence, and the rendered signature
template. -/
theorem draft_body_composition (store : Store) (now : Nat) (qid : String) (q : QueryDoc)
    (intro sig : String)
    (hq : findQuery store qid = some q)
    (hi : renderIntro (resolveStyleDraft store) (senderNameOr q) = .ok intro)
    (hs : renderSignature (resolveStyleDraft store) = .ok sig) :
    (draft_email store now qid).1 =
      .ok { draft_id := oidToString store.nextId
          , body := intro ++ "\n\n" ++ draftPitchContent store qid ++ sig } ∧
    (∀ q2 : QueryDoc, q2.sender_name = none → senderNameOr q2 = "there") ∧
    (∀ q2 : QueryDoc, q2.sender_name = some "" → senderNameOr q2 = "there") := by
  refine ⟨draft_email_found store now qid q intro sig hq hi hs, ?_, ?_⟩
  · intro q2 h2; simp [senderNameOr, h2]
  · intro q2 h2; simp [senderNameOr, h2]

/-- Witness for C8: in the specification's scenario (Query with sender_name
"Jane" and sender_email "jane@x.com", default settings, no stored pitch) the
draft body starts with "Hi Jane,\n\nThanks for reaching out" and ends with
the rendered signature, which contains "Your Name". -/
theorem draft_body_composition_witness :
    (draft_email janeStore 0 "0").1 = .ok { draft_id := "1", body := janeBody } ∧
    janeBody = "Hi Jane,\n\nThanks for reaching out" ++
      ". I'm Your Name, a Licensed Psychologist.\n\nSee below for my quick take: ..." ++ janeSig ∧
    janeSig = "\n\nBest,\n" ++ "Your Name" ++ "\nLicensed Psychologist\nyourwebsite.com" := by
  refine ⟨?_, by decide, by decide⟩
  have h := (draft_body_composition janeStore 0 "0" janeQuery janeIntro janeSig
    rfl rfl rfl).1
  exact h.trans (by decide)

/-- C10: every /approve call matching an existing draft rewrites that draft
with a fresh updated_at timestamp (the call's current time), even when the
stored approved value is unchanged, and modifies no draft fields other than
approved and updated_at; all other drafts and all other collections are left
untouched. -/
theorem approve_frame_effect (store : Store) (now : Nat) (did : String) (v : Bool) (n : Nat)
    (pre post : List EmailDraftDoc) (d : EmailDraftDoc)
    (hn : parseObjectId did = some n)
    (hsplit : store.emaildraft = pre ++ d :: post)
    (hd : d.oid = n)
    (hpre : ∀ p ∈ pre, p.oid ≠ n) :
    approve_draft store now did v =
      (.ok { updated := if ({ d with approved := v, updated_at := some now } : EmailDraftDoc) = d
                        then false else true },
       { store with emaildraft := pre ++ { d with approved := v, updated_at := some now } :: post }) ∧
    ({ d with approved := v, updated_at := some now } : EmailDraftDoc).updated_at = some now ∧
    ({ d with approved := v, updated_at := some now } : EmailDraftDoc).approved = v ∧
    ({ d with approved := v, updated_at := some now } : EmailDraftDoc).oid = d.oid ∧
    ({ d with approved := v, updated_at := some now } : EmailDraftDoc).query_id = d.query_id ∧
    ({ d with approved := v, updated_at := some now } : EmailDraftDoc).to_email = d.to_email ∧
    ({ d with approved := v, updated_at := some now } : EmailDraftDoc).subject = d.subject ∧
    ({ d with approved := v, updated_at := some now } : EmailDraftDoc).body = d.body ∧
    ({ d with approved := v, updated_at := some now } : EmailDraftDoc).created_at = d.created_at :=
  ⟨approve_split store now did v n pre post d hn hsplit hd hpre,
    rfl, rfl, rfl, rfl, rfl, rfl, rfl, rfl⟩

/-- Witness for C10: approving an already-approved draft (stored updated_at
5) at time 7 leaves approved unchanged but refreshes updated_at to 7. -/
theorem approve_frame_effect_witness :
    approve_draft approvedAt5Store 7 "0" true =
      (.ok { updated := true },
       { approvedAt5Store with
           emaildraft := [{ approvedAt5Draft with approved := true, updated_at := some 7 }] }) ∧
    ({ approvedAt5Draft with approved := true, updated_at := some 7 } : EmailDraftDoc).updated_at = some 7 ∧
    approvedAt5Draft.approved = true := by
  have h := (approve_frame_effect approvedAt5Store 7 "0" true 0 [] [] approvedAt5Draft
    rfl rfl rfl (by simp)).1
  exact ⟨h.trans (by decide), by decide, by decide⟩

/-- Counterexample for C2: on a stored draft, approving with true and then
approving with true again at a later timestamp returns updated = true on the
second call, not updated = false as claimed: `modified_count` counts any
document change and updated_at is refreshed on every call. -/
theorem approve_twice_counterexample :
    (approve_draft unapprovedStore 10 "0" true).1 = .ok { updated := true } ∧
    (approve_draft (approve_draft unapprovedStore 10 "0" true).2 20 "0" true).1 =
      .ok { updated := true } := by
  exact ⟨by decide, by decide⟩

/-- C2 as amended: /approve is idempotent in its effect on the approved flag,
but the reported `updated` value reflects whether the stored document changed
at all, not whether approved changed: since updated_at is refreshed to the
call time, a second approve(true) at a different timestamp returns
updated = true (it would return false only if the two timestamps coincide),
and approve(false) after approve(true) also returns updated = true. -/
theorem approve_updated_reports_document_change (store : Store) (t1 t2 : Nat)
    (did : String) (n : Nat) (pre post : List EmailDraftDoc) (d : EmailDraftDoc)
    (hn : parseObjectId did = some n)
    (hsplit : store.emaildraft = pre ++ d :: post)
    (hd : d.oid = n)
    (hpre : ∀ p ∈ pre, p.oid ≠ n)
    (hne : t1 ≠ t2) :
    (approve_draft store t1 did true =
      (.ok { updated := if ({ d with approved := true, updated_at := some t1 } : EmailDraftDoc) = d
                        then false else true },
       { store with emaildraft := pre ++ { d with approved := true, updated_at := some t1 } :: post })) ∧
    ((approve_draft
        { store with emaildraft := pre ++ { d with approved := true, updated_at := some t1 } :: post }
        t2 did true).1 = .ok { updated := true }) ∧
    ((approve_draft
        { store with emaildraft := pre ++ { d with approved := true, updated_at := some t1 } :: post }
        t2 did false).1 = .ok { updated := true }) := by
  refine ⟨approve_split store t1 did true n pre post d hn hsplit hd hpre, ?_, ?_⟩
  · have h2 := approve_split
      { store with emaildraft := pre ++ { d with approved := true, updated_at := some t1 } :: post }
      t2 did true n pre post { d with approved := true, updated_at := some t1 } hn rfl hd hpre
    rw [h2]
    have hcond : ¬(({ d with approved := true, updated_at := some t2 } : EmailDraftDoc) =
        { d with approved := true, updated_at := some t1 }) := by
      intro heq
      exact hne (Option.some.inj (congrArg EmailDraftDoc.updated_at heq)).symm
    simp [hcond]
  · have h3 := approve_split
      { store with emaildraft := pre ++ { d with approved := true, updated_at := some t1 } :: post }
      t2 did false n pre post { d with approved := true, updated_at := some t1 } hn rfl hd hpre
    rw [h3]
    have hcond : ¬(({ d with approved := false, updated_at := some t2 } : EmailDraftDoc) =
        { d with approved := true, updated_at := some t1 }) := by
      intro heq
      have := congrArg EmailDraftDoc.approved heq
      simp at this
    simp [hcond]

/-- Witness for the amended C2: concrete second calls at time 20 after an
approve(true) at time 10 both report updated = true. -/
theorem approve_updated_reports_document_change_witness :
    (approve_draft (approve_draft unapprovedStore 10 "0" true).2 20 "0" true).1 =
      .ok { updated := true } ∧
    (approve_draft (approve_draft unapprovedStore 10 "0" true).2 20 "0" false).1 =
      .ok { updated := true } := by
  have h := approve_updated_reports_document_change unapprovedStore 10 20 "0" 0 [] []
    unapprovedDraft rfl rfl rfl (by simp) (by norm_num)
  have hs : (approve_draft unapprovedStore 10 "0" true).2 =
      { unapprovedStore with
          emaildraft := [{ unapprovedDraft with approved := true, updated_at := some 10 }] } :=
    congrArg Prod.snd h.1
  rw [hs]
  exact ⟨h.2.1, h.2.2⟩

/-- C1 (code bug): sending an approved draft creates exactly one sent record
copying the draft's to_email, subject and body and stamping sent_at, but the
referenced query's status does NOT become "sent": the update filter uses the
draft's stored string `query_id` against ObjectId-typed `_id` values, so it
matches no document and the query keeps status "new". -/
theorem send_approved_leaves_query_status :
    send_email sendStore 99 "1" =
      (.ok { sent_id := "2" },
       { sendStore with
           sent := [{ oid := 2, draft_id := "1", «to» := "jane@x.com"
                    , subject := "Need psych expert", body := "Hello", sent_at := 99 }]
           , nextId := 3 }) ∧
    (send_email sendStore 99 "1").2.query = [sendQuery] ∧
    ((send_email sendStore 99 "1").2.query.map (fun q => q.status)) = ["new"] := by
  exact ⟨by decide, by decide, by decide⟩

/-- C3 (code bug): sending an unapproved draft is rejected and creates no
sent record (the store is unchanged), but the NotApproved condition reaches
the client as HTTP 500 with detail "400: Draft not approved", not as HTTP
400: the HTTPException(400) is swallowed by the enclosing
`except Exception` and re-raised as a 500. -/
theorem send_unapproved_surfaces_500 :
    send_email unapprovedStore 5 "0" =
      (.httpError 500 "400: Draft not approved", unapprovedStore) := by
  decide

/-- C4 (code bug): /approve and /send on a draft_id matching no stored draft
reject the call, but the NotFound condition reaches the client as HTTP 500
with detail "404: Draft not found", not as HTTP 404: the HTTPException(404)
is swallowed by the enclosing `except Exception` and re-raised as a 500. -/
theorem notfound_surfaces_500 :
    approve_draft emptyStore 0 "5" true =
      (.httpError 500 "404: Draft not found", emptyStore) ∧
    send_email emptyStore 0 "5" =
      (.httpError 500 "404: Draft not found", emptyStore) := by
  exact ⟨by decide, by decide⟩

/-- Counterexample for C5: with a settings document whose intro template
references the unknown placeholder "recipient", /draft terminates with an
uncaught KeyError (the framework's generic 500 Internal Server Error), not
with any distinct client-visible HTTP error: no HTTPException of any status
or detail is produced. -/
theorem template_keyerror_counterexample :
    draft_email badTemplateStore 0 "0" = (.uncaught "recipient", badTemplateStore) ∧
    (∀ s dtl, (draft_email badTemplateStore 0 "0").1 ≠ .httpError s dtl) := by
  refine ⟨by decide, ?_⟩
  intro s dtl h
  rw [show (draft_email badTemplateStore 0 "0").1 = .uncaught "recipient" by decide] at h
  exact EndpointResult.noConfusion h

/-- C5 as amended: when the intro template or the signature template
references a placeholder name outside the set supplied to its rendering, the
rendering KeyError propagates out of the endpoint uncaught — the failing
placeholder name never reaches the client, which sees only the framework's
generic 500 — instead of surfacing as a distinct TemplateError.  The first
conjunct covers a failing intro rendering; the second covers a clean intro
rendering followed by a failing signature rendering. -/
theorem template_keyerror_uncaught (store : Store) (now : Nat) (qid : String)
    (q : QueryDoc) (key : String)
    (hq : findQuery store qid = some q) :
    (renderIntro (resolveStyleDraft store) (senderNameOr q) = .error key →
      draft_email store now qid = (.uncaught key, store)) ∧
    (∀ intro, renderIntro (resolveStyleDraft store) (senderNameOr q) = .ok intro →
      renderSignature (resolveStyleDraft store) = .error key →
      draft_email store now qid = (.uncaught key, store)) := by
  constructor
  · intro hk
    unfold draft_email
    rw [hq]
    simp only [hk]
  · intro intro hi hk
    unfold draft_email
    rw [hq]
    simp only [hi, hk]

/-- Witness for the amended C5: a settings document whose intro template
references the unknown placeholder "nickname" makes /draft die with the
uncaught KeyError carrying that name, and one with a clean intro template but
a signature template referencing the unknown placeholder "handle" dies with
the uncaught KeyError carrying that name. -/
theorem template_keyerror_uncaught_witness :
    draft_email badTemplateStore2 3 "0" = (.uncaught "nickname", badTemplateStore2) ∧
    draft_email badSigStore 4 "0" = (.uncaught "handle", badSigStore) :=
  ⟨(template_keyerror_uncaught badTemplateStore2 3 "0" simpleQuery "nickname" rfl).1 rfl,
   (template_keyerror_uncaught badSigStore 4 "0" simpleQuery "handle" rfl).2 "Hi there," rfl rfl⟩
